import Mathlib

/-!
Verification of the payment core of the skill-upgrade-hub repository:
the `create-payment` and `payment-webhook` Supabase edge functions.

The two handlers are embedded as pure Lean functions over an explicit
database state (`Db`).  External collaborators (the auth service, the
profile table, the Midtrans gateway, clock, row-id generation, and store
fault injection) are passed in as explicit environment arguments, so that
each handler is a deterministic function of its inputs.

The webhook authenticates notifications with SHA-512 (via
`crypto.subtle.digest('SHA-512', ...)` in the source); SHA-512 itself is
an external primitive, embedded here in full (FIPS 180-4) so that the
signature check is executable.
-/

set_option maxRecDepth 100000

namespace SkillHub

/-! ## SHA-512 primitive (FIPS 180-4), on `Nat` with explicit 64-bit wrap -/

/-- Truncate to a 64-bit word. -/
def w64 (n : Nat) : Nat := n % 18446744073709551616

/-- Right rotation of a 64-bit word. -/
def rotr (n x : Nat) : Nat := w64 ((x >>> n) ||| (x <<< (64 - n)))

/-- Bitwise complement of a 64-bit word. -/
def wnot (x : Nat) : Nat := x ^^^ 18446744073709551615

def bigSigma0 (x : Nat) : Nat := rotr 28 x ^^^ rotr 34 x ^^^ rotr 39 x

def bigSigma1 (x : Nat) : Nat := rotr 14 x ^^^ rotr 18 x ^^^ rotr 41 x

def smallSigma0 (x : Nat) : Nat := rotr 1 x ^^^ rotr 8 x ^^^ (x >>> 7)

def smallSigma1 (x : Nat) : Nat := rotr 19 x ^^^ rotr 61 x ^^^ (x >>> 6)

def chF (x y z : Nat) : Nat := (x &&& y) ^^^ (wnot x &&& z)

def majF (x y z : Nat) : Nat := (x &&& y) ^^^ (x &&& z) ^^^ (y &&& z)

/-- The 80 SHA-512 round constants (FIPS 180-4 §4.2.3: the first 64 bits of
the fractional parts of the cube roots of the first 80 primes), written as
decimal naturals. -/
def sha512K : List Nat :=
  [4794697086780616226, 8158064640168781261, 13096744586834688815, 16840607885511220156,
   4131703408338449720, 6480981068601479193, 10538285296894168987, 12329834152419229976,
   15566598209576043074, 1334009975649890238, 2608012711638119052, 6128411473006802146,
   8268148722764581231, 9286055187155687089, 11230858885718282805, 13951009754708518548,
   16472876342353939154, 17275323862435702243, 1135362057144423861, 2597628984639134821,
   3308224258029322869, 5365058923640841347, 6679025012923562964, 8573033837759648693,
   10970295158949994411, 12119686244451234320, 12683024718118986047, 13788192230050041572,
   14330467153632333762, 15395433587784984357, 489312712824947311, 1452737877330783856,
   2861767655752347644, 3322285676063803686, 5560940570517711597, 5996557281743188959,
   7280758554555802590, 8532644243296465576, 9350256976987008742, 10552545826968843579,
   11727347734174303076, 12113106623233404929, 14000437183269869457, 14369950271660146224,
   15101387698204529176, 15463397548674623760, 17586052441742319658, 1182934255886127544,
   1847814050463011016, 2177327727835720531, 2830643537854262169, 3796741975233480872,
   4115178125766777443, 5681478168544905931, 6601373596472566643, 7507060721942968483,
   8399075790359081724, 8693463985226723168, 9568029438360202098, 10144078919501101548,
   10430055236837252648, 11840083180663258601, 13761210420658862357, 14299343276471374635,
   14566680578165727644, 15097957966210449927, 16922976911328602910, 17689382322260857208,
   500013540394364858, 748580250866718886, 1242879168328830382, 1977374033974150939,
   2944078676154940804, 3659926193048069267, 4368137639120453308, 4836135668995329356,
   5532061633213252278, 6448918945643986474, 6902733635092675308, 7801388544844847127]

/-- Running state of the compression function. -/
structure HashState where
  a : Nat
  b : Nat
  c : Nat
  d : Nat
  e : Nat
  f : Nat
  g : Nat
  h : Nat
  deriving Repr, DecidableEq

/-- SHA-512 initial hash value (FIPS 180-4 §5.3.5: the first 64 bits of the
fractional parts of the square roots of the first 8 primes), written as
decimal naturals. -/
def sha512H0 : HashState :=
  ⟨7640891576956012808, 13503953896175478587, 4354685564936845355, 11912009170470909681,
   5840696475078001361, 11170449401992604703, 2270897969802886507, 6620516959819538809⟩

/-- `k` bytes of `n`, big-endian. -/
def toBytesBE (k n : Nat) : List Nat :=
  (List.range k).map fun i => (n >>> (8 * (k - 1 - i))) % 256

/-- Big-endian word from a list of bytes. -/
def bytesToWord (bs : List Nat) : Nat := bs.foldl (fun acc b => acc * 256 + b) 0

/-- SHA-512 padding: `0x80`, zeros, then the bit length as 16 bytes big-endian,
to a multiple of 128 bytes. -/
def padMessage (msg : List Nat) : List Nat :=
  let L := msg.length
  let z := (128 - (L + 17) % 128) % 128
  msg ++ [128] ++ List.replicate z 0 ++ toBytesBE 16 (8 * L)

/-- The 128-byte blocks of a padded message. -/
def sha512Blocks (padded : List Nat) : List (List Nat) :=
  (List.range (padded.length / 128)).map fun i => (padded.drop (128 * i)).take 128

/-- Extend the 16 block words to the 80-word message schedule. -/
def messageSchedule (ws : List Nat) : List Nat :=
  (List.range 64).foldl
    (fun acc _ =>
      acc ++ [w64 (smallSigma1 (acc.getD (acc.length - 2) 0) + acc.getD (acc.length - 7) 0 +
                   smallSigma0 (acc.getD (acc.length - 15) 0) + acc.getD (acc.length - 16) 0)])
    ws

/-- One round of the compression function; `kw` is the round constant paired
with the schedule word. -/
def roundStep (s : HashState) (kw : Nat × Nat) : HashState :=
  let t1 := w64 (s.h + bigSigma1 s.e + chF s.e s.f s.g + kw.1 + kw.2)
  let t2 := w64 (bigSigma0 s.a + majF s.a s.b s.c)
  ⟨w64 (t1 + t2), s.a, s.b, s.c, w64 (s.d + t1), s.e, s.f, s.g⟩

/-- Compress one 128-byte block into the running hash state. -/
def compressBlock (hs : HashState) (block : List Nat) : HashState :=
  let ws := messageSchedule ((List.range 16).map fun i => bytesToWord ((block.drop (8 * i)).take 8))
  let s := (sha512K.zip ws).foldl roundStep hs
  ⟨w64 (hs.a + s.a), w64 (hs.b + s.b), w64 (hs.c + s.c), w64 (hs.d + s.d),
   w64 (hs.e + s.e), w64 (hs.f + s.f), w64 (hs.g + s.g), w64 (hs.h + s.h)⟩

/-- The eight words of a hash state. -/
def stateWords (s : HashState) : List Nat := [s.a, s.b, s.c, s.d, s.e, s.f, s.g, s.h]

/-- SHA-512 digest (64 bytes) of a byte sequence. -/
def sha512Bytes (msg : List Nat) : List Nat :=
  let fin := (sha512Blocks (padMessage msg)).foldl compressBlock sha512H0
  ((stateWords fin).map (toBytesBE 8)).flatten

/-! ## UTF-8 encoding and hexadecimal rendering -/

/-- UTF-8 encoding of one code point (`TextEncoder` semantics per char). -/
def utf8Char (c : Char) : List Nat :=
  let n := c.toNat
  if n < 128 then [n]
  else if n < 2048 then [192 ||| (n >>> 6), 128 ||| (n &&& 63)]
  else if n < 65536 then
    [224 ||| (n >>> 12), 128 ||| ((n >>> 6) &&& 63), 128 ||| (n &&& 63)]
  else
    [240 ||| (n >>> 18), 128 ||| ((n >>> 12) &&& 63), 128 ||| ((n >>> 6) &&& 63),
     128 ||| (n &&& 63)]

/-- UTF-8 bytes of a string (the `TextEncoder().encode` of the source). -/
def utf8Bytes (s : String) : List Nat := (s.data.map utf8Char).flatten

/-- Lowercase hexadecimal digit. -/
def hexDigitChar (n : Nat) : Char :=
  if n < 10 then Char.ofNat (48 + n) else Char.ofNat (87 + n)

/-- Hex digits of `n`, most significant first; fuel-structured so it reduces
in the kernel.  Empty for `0` (matching the recursion of JS `toString(16)`,
which special-cases `0` at the top level). -/
def natHexDigitsAux : Nat → Nat → List Char
  | 0, _ => []
  | fuel + 1, n => if n = 0 then [] else natHexDigitsAux fuel (n / 16) ++ [hexDigitChar (n % 16)]

/-- JS `Number.prototype.toString(16)` for naturals: lowercase hex, no
leading zeros, `"0"` for zero. -/
def natToHexJs (n : Nat) : String :=
  if n = 0 then "0" else String.mk (natHexDigitsAux n n)

/-- JS `String.prototype.padStart(len, '0')`. -/
def padStartZeros (len : Nat) (s : String) : String :=
  if len ≤ s.length then s else String.mk (List.replicate (len - s.length) '0') ++ s

/-- The hex rendering of the source:
`hashArray.map(b => b.toString(16).padStart(2, '0')).join('')`. -/
def hexEncodeJs (bs : List Nat) : String :=
  String.join (bs.map fun b => padStartZeros 2 (natToHexJs b))

/-- Spec-side rendering: each byte as exactly two lowercase hex digits. -/
def byteToHex2 (b : Nat) : String := String.mk [hexDigitChar (b / 16), hexDigitChar (b % 16)]

/-- Spec-side lowercase-hex rendering of a digest. -/
def renderHexLower (bs : List Nat) : String := String.join (bs.map byteToHex2)

/-! ## Signature verifier (`verifyMidtransSignature` in
`supabase/functions/payment-webhook/index.ts`) -/

/-- The signature verifier of the webhook: SHA-512 over the concatenation
`orderId ++ statusCode ++ grossAmount ++ serverKey`, rendered byte-by-byte
as two-digit lowercase hex, compared to `signatureKey`. -/
def verifyMidtransSignature (orderId statusCode grossAmount serverKey signatureKey : String) :
    Bool :=
  let signatureString := orderId ++ statusCode ++ grossAmount ++ serverKey
  let data := utf8Bytes signatureString
  let calculatedSignature := hexEncodeJs (sha512Bytes data)
  calculatedSignature == signatureKey

/-! ## Data model: the rows of the Supabase tables touched by the payment core -/

/-- A row of the `payments` table. -/
structure PaymentRow where
  id : String
  user_id : String
  course_id : String
  amount : Int
  midtrans_order_id : String
  status : String
  midtrans_transaction_id : Option String
  payment_type : Option String
  deriving Repr, DecidableEq

/-- A row of the `enrollments` table (the fields the payment core touches). -/
structure EnrollmentRow where
  user_id : String
  course_id : String
  progress : Nat
  deriving Repr, DecidableEq

/-- A row of the `courses` table (the columns selected by `create-payment`). -/
structure Course where
  id : String
  price : Int
  is_free : Bool
  status : String
  deriving Repr, DecidableEq

/-- The durable store: single source of truth for both handlers. -/
structure Db where
  courses : List Course
  payments : List PaymentRow
  enrollments : List EnrollmentRow
  deriving Repr, DecidableEq

/-- Body of an HTTP response produced by the handlers. -/
inductive RespBody where
  /-- `{ success: true }` (webhook acceptance). -/
  | success : RespBody
  /-- `{ success: true, payment_url, order_id, transaction_id }` (create-payment). -/
  | successPayment (payment_url order_id transaction_id : String) : RespBody
  /-- `{ error: msg }`. -/
  | errorMsg (msg : String) : RespBody
  deriving Repr, DecidableEq

/-- An HTTP response: status code and JSON body. -/
structure Resp where
  status : Nat
  body : RespBody
  deriving Repr, DecidableEq

/-- JS falsiness of an optional string (`undefined`, `null` and `""` are
falsy; every other string is truthy). -/
def optFalsy : Option String → Bool
  | none => true
  | some s => s.isEmpty

/-! ## Webhook handler (`supabase/functions/payment-webhook/index.ts`) -/

/-- An inbound Midtrans notification (the parsed JSON body).  `signature_key`
is optional because the handler explicitly guards its absence; the remaining
fields are the ones the handler reads. -/
structure Notification where
  order_id : String
  status_code : String
  gross_amount : String
  signature_key : Option String
  transaction_status : String
  fraud_status : String
  deriving Repr, DecidableEq

/-- The status mapping of the handler: `capture`+`accept` and `settlement`
map to `settlement`; `cancel`/`deny`/`expire` map to `failed`; everything
else (including `capture` with another fraud status) leaves the default
`pending`. -/
def mapPaymentStatus (transactionStatus fraudStatus : String) : String :=
  if transactionStatus = "capture" then
    if fraudStatus = "accept" then "settlement" else "pending"
  else if transactionStatus = "settlement" then "settlement"
  else if transactionStatus = "cancel" ∨ transactionStatus = "deny" ∨
          transactionStatus = "expire" then "failed"
  else "pending"

/-- `supabase.from('payments').update({status}).eq('midtrans_order_id', orderId)
.select().single()`: sets `status` on the rows matching the order id and
returns the updated row; `.single()` makes anything other than exactly one
matching row an error, in which case the write is rolled back. -/
def updatePaymentByOrder (st : Db) (orderId newStatus : String) :
    Option PaymentRow × Db :=
  match st.payments.filter (fun p => p.midtrans_order_id == orderId) with
  | [p] =>
    (some { p with status := newStatus },
     { st with
        payments := st.payments.map fun q =>
          if q.midtrans_order_id == orderId then { q with status := newStatus } else q })
  | _ => (none, st)

/-- `supabase.from('enrollments').insert({user_id, course_id, progress: 0})`.

Modelled from the spec: the `enrollments` table carries a uniqueness
constraint on `(user_id, course_id)` (the migration declaring it is not
among the sources here); an insert that violates it fails with a
`duplicate key value violates unique constraint` error and leaves the
store unchanged.  `fault` injects an arbitrary store-side failure
(message of the error), modelling the external store's other failure
modes; `none` means the store is healthy. -/
def insertEnrollment (st : Db) (userId courseId : String) (fault : Option String) :
    Option String × Db :=
  match fault with
  | some msg => (some msg, st)
  | none =>
    if st.enrollments.any (fun e => e.user_id == userId && e.course_id == courseId) then
      (some "duplicate key value violates unique constraint", st)
    else
      (none, { st with enrollments := st.enrollments ++ [⟨userId, courseId, 0⟩] })

/-- The webhook handler.  `serverKey` is the `MIDTRANS_SERVER_KEY`
environment value (`none` when unset); `enrollFault` injects a store
failure into the enrollment insert (see `insertEnrollment`).

Mirrors the source order: secret-configuration check (500), missing
`signature_key` check (401), signature verification (401), status mapping,
payment update (`throw` on error, caught as a 400 whose body carries the
thrown message verbatim), then the enrollment insert on settlement, whose
error is only logged (the source checks the message for `duplicate` merely
to decide whether to log) and never reaches the response. -/
def handleNotification (serverKey : Option String) (n : Notification) (st : Db)
    (enrollFault : Option String) : Resp × Db :=
  if optFalsy serverKey then
    (⟨500, .errorMsg "Server configuration error"⟩, st)
  else if optFalsy n.signature_key then
    (⟨401, .errorMsg "Invalid request"⟩, st)
  else if ¬ verifyMidtransSignature n.order_id n.status_code n.gross_amount
            (serverKey.getD "") (n.signature_key.getD "") then
    (⟨401, .errorMsg "Invalid signature"⟩, st)
  else
    match updatePaymentByOrder st n.order_id
        (mapPaymentStatus n.transaction_status n.fraud_status) with
    | (none, st1) => (⟨400, .errorMsg "Failed to update payment"⟩, st1)
    | (some payment, st1) =>
      if mapPaymentStatus n.transaction_status n.fraud_status = "settlement" then
        (⟨200, .success⟩, (insertEnrollment st1 payment.user_id payment.course_id enrollFault).2)
      else
        (⟨200, .success⟩, st1)

/-! ## Create-payment handler (`supabase/functions/create-payment/index.ts`) -/

/-- `getUserMessage`: the fixed mapping from internal error messages to
user-facing messages, with a generic default for anything unmapped. -/
def getUserMessage (msg : String) : String :=
  if msg = "Missing authorization header" then "Authentication required. Please log in."
  else if msg = "Unauthorized" then "Authentication required. Please log in."
  else if msg = "Missing required fields" then "Invalid payment request. Please try again."
  else if msg = "Course not found" then "The selected course does not exist or is not available."
  else if msg = "Price mismatch" then "The payment amount does not match the course price."
  else if msg = "Failed to create payment record" then
    "Payment processing is temporarily unavailable. Please try again later."
  else if msg = "Failed to create Midtrans transaction" then
    "Payment provider is temporarily unavailable. Please try again later."
  else "An unexpected error occurred. Please contact support if the issue persists."

/-- Hex digit in either case. -/
def isHexChar (c : Char) : Bool :=
  (48 ≤ c.toNat && c.toNat ≤ 57) || (97 ≤ c.toNat && c.toNat ≤ 102) ||
  (65 ≤ c.toNat && c.toNat ≤ 70)

/-- The 8-4-4-4-12 hex shape checked by `z.string().uuid()`. -/
def isUuidString (s : String) : Bool :=
  s.length == 36 &&
  (List.range 36).all fun i =>
    if i = 8 ∨ i = 13 ∨ i = 18 ∨ i = 23 then s.data.getD i ' ' == '-'
    else isHexChar (s.data.getD i ' ')

/-- `paymentRequestSchema.safeParse`: first violated rule's message, in the
shape's field order (`courseId` uuid, then `amount` positive and min 1);
`none` when the body validates.  (Restricted to well-typed JSON bodies:
field-type mismatches of arbitrary JSON are outside the model.) -/
def validatePaymentRequest (courseId : String) (amount : Int) : Option String :=
  if ¬ isUuidString courseId then some "Invalid course ID format"
  else if ¬ (0 < amount) then some "Amount must be positive"
  else if amount < 1 then some "Amount must be at least 1"
  else none

/-- The authenticated caller as resolved by `supabase.auth.getUser`. -/
structure CPUser where
  id : String
  email : String
  deriving Repr, DecidableEq

/-- Environment of one `create-payment` request: every external
collaborator the handler consults, made explicit. -/
structure CPEnv where
  /-- Result of resolving the bearer token (`none` = auth error / no user). -/
  authUser : Option CPUser
  /-- `Date.now()`, used in the generated order id. -/
  now : Nat
  /-- Row id the store assigns to the inserted payment. -/
  newPaymentId : String
  /-- `profiles.full_name` for the caller, when present. -/
  profileName : Option String
  /-- Whether the payment insert fails (`StoreUnavailable`). -/
  insertFault : Bool
  /-- Whether the Midtrans charge call succeeds. -/
  midtransOk : Bool
  midtransTransactionId : String
  midtransPaymentType : String
  /-- `midtransData.actions` as (name, url) pairs. -/
  midtransActions : List (String × String)
  midtransRedirectUrl : String
  deriving Repr, DecidableEq

/-- One `create-payment` request: the Authorization header and the parsed
JSON body. -/
structure CPRequest where
  authHeader : Option String
  courseId : String
  amount : Int
  deriving Repr, DecidableEq

/-- The `create-payment` handler.  Mirrors the source order: auth header
check, token resolution, body validation (zod), course lookup (`.single()`),
price-authority check, order-id generation, payment insert, Midtrans
charge, best-effort enrichment of the stored row, success response.  Every
thrown internal message is passed through `getUserMessage` by the catch
block; validation failures return the zod message directly. -/
def createPayment (env : CPEnv) (req : CPRequest) (st : Db) : Resp × Db :=
  if req.authHeader.isNone then
    (⟨400, .errorMsg (getUserMessage "Missing authorization header")⟩, st)
  else
    match env.authUser with
    | none => (⟨400, .errorMsg (getUserMessage "Unauthorized")⟩, st)
    | some user =>
      match validatePaymentRequest req.courseId req.amount with
      | some vmsg => (⟨400, .errorMsg vmsg⟩, st)
      | none =>
        match st.courses.filter (fun c => c.id == req.courseId) with
        | [course] =>
          if course.is_free = false ∧ course.price ≠ req.amount then
            (⟨400, .errorMsg (getUserMessage "Price mismatch")⟩, st)
          else
            let orderId := "ORDER-" ++ toString env.now ++ "-" ++ (user.id.take 8)
            if env.insertFault then
              (⟨400, .errorMsg (getUserMessage "Failed to create payment record")⟩, st)
            else
              let payment : PaymentRow :=
                ⟨env.newPaymentId, user.id, req.courseId, req.amount, orderId,
                 "pending", none, none⟩
              let st1 := { st with payments := st.payments ++ [payment] }
              if env.midtransOk = false then
                (⟨400, .errorMsg (getUserMessage "Failed to create Midtrans transaction")⟩, st1)
              else
                let st2 :=
                  { st1 with
                      payments := st1.payments.map fun q =>
                        if q.id == payment.id then
                          { q with
                              midtrans_transaction_id := some env.midtransTransactionId,
                              payment_type := some env.midtransPaymentType }
                        else q }
                let url :=
                  match env.midtransActions.find? (fun a => a.1 == "generate-qr-code") with
                  | some a => a.2
                  | none => env.midtransRedirectUrl
                (⟨200, .successPayment url orderId env.midtransTransactionId⟩, st2)
        | _ => (⟨400, .errorMsg (getUserMessage "Course not found")⟩, st)

/-! ## Derived forms and fixed message tables used by the statements -/

/-- The effect of the webhook's payment update on the `payments` table:
set `status` on every row whose `midtrans_order_id` matches. -/
def setStatusByOrder (oid ns : String) (l : List PaymentRow) : List PaymentRow :=
  l.map fun q => if q.midtrans_order_id == oid then { q with status := ns } else q

/-- The effect of the enrollment insert on the `enrollments` table (see
`insertEnrollment`). -/
def enrollAfterInsert (l : List EnrollmentRow) (u c : String) (fault : Option String) :
    List EnrollmentRow :=
  match fault with
  | some _ => l
  | none =>
    if l.any (fun e => e.user_id == u && e.course_id == c) then l else l ++ [⟨u, c, 0⟩]

/-- The four literal strings the webhook handler can place in an error
body.  There is no mapping step: the 400 arm carries the thrown internal
message (`Failed to update payment`) verbatim. -/
def webhookClientMessages : List String :=
  ["Server configuration error", "Invalid request", "Invalid signature",
   "Failed to update payment"]

/-- The client-facing strings of `create-payment`: the values of
`getUserMessage`'s fixed table, its generic default, and the zod
validation messages. -/
def createPaymentClientMessages : List String :=
  ["Authentication required. Please log in.",
   "Invalid payment request. Please try again.",
   "The selected course does not exist or is not available.",
   "The payment amount does not match the course price.",
   "Payment processing is temporarily unavailable. Please try again later.",
   "Payment provider is temporarily unavailable. Please try again later.",
   "An unexpected error occurred. Please contact support if the issue persists.",
   "Invalid course ID format", "Amount must be positive", "Amount must be at least 1"]

/-- Whether an error response's message lies within `msgs`; non-error
responses pass vacuously. -/
def errMsgWithin (r : Resp) (msgs : List String) : Bool :=
  match r.body with
  | .errorMsg m => msgs.contains m
  | _ => true

/-! ## Concrete witness data

The signature constants are the SHA-512 digests (two-digit lowercase hex)
of the corresponding `order_id ++ status_code ++ gross_amount ++ "secret"`
concatenations; each is re-verified inside the proofs by kernel
evaluation of the embedded SHA-512. -/

def wKey : String := "secret"

def wOrder : String := "ORDER-1-user0001"

/-- Valid signature for (`ORDER-1-user0001`, `200`, `100000.00`, `secret`). -/
def wSig1 : String :=
  "71a3c3129316992f434457dae9a277d1dc76ba1c68328c27d727c5ce8cd6da596c0a18f6bca5cc5185f1b60ac254739b8683096410f1b9ec7f83b42d144495d6"

/-- Valid signature for (`ORDER-2-nobody00`, `200`, `100000.00`, `secret`);
not valid for `ORDER-1-user0001`. -/
def wSig2 : String :=
  "78246610cb798b79d786fa641e2346bea513b6efc7cc5d4ed955a88ba07f90790e97274411eaf70c3bc2640fa2c5a1d9c386a1a8c4bbcf4917bae59f80c2bbc4"

/-- Valid signature for (`ORDER-1-user0001`, `200`, `250000.00`, `secret`). -/
def wSig3 : String :=
  "7ad16d73eb0bfcc55527c27697a1764d8ccef42b61fc020db8f35b8b7697bae31556773bad4901b15230daf900b9012d6d6b5778ced9d95b60879a6a675488bf"

/-- A notification for `wOrder` with status code `200`. -/
def mkNotif (ts fs g sig : String) : Notification :=
  ⟨wOrder, "200", g, some sig, ts, fs⟩

def wPayment : PaymentRow :=
  ⟨"pay-1", "user-1", "course-1", 100000, wOrder, "pending", none, none⟩

/-- Store with one pending intent for `wOrder`. -/
def wDbPending : Db := ⟨[], [wPayment], []⟩

/-- Store in which the `wOrder` intent has already settled. -/
def wDbSettled : Db := ⟨[], [{ wPayment with status := "settlement" }], []⟩

/-- A published, non-free course used by the create-payment witnesses. -/
def wCourse : Course := ⟨"11111111-2222-3333-4444-555555555555", 100000, false, "published"⟩

def wDbCourse : Db := ⟨[wCourse], [], []⟩

/-- Environment for the create-payment witnesses. -/
def wEnv : CPEnv :=
  ⟨some ⟨"user-0001-aaaa", "u@example.com"⟩, 1, "pay-1", some "User One",
   false, true, "trx-1", "gopay", [("generate-qr-code", "qr-url")], "redirect-url"⟩

/-- A create-payment request for `wCourse` at half the stored price. -/
def wReq : CPRequest :=
  ⟨some "Bearer token", "11111111-2222-3333-4444-555555555555", 50000⟩

/-! ## Supporting lemmas -/

lemma optFalsy_some_eq_false {k : String} (hk : k ≠ "") : optFalsy (some k) = false := by
  have : k.isEmpty = false := by
    cases h : k.isEmpty
    · rfl
    · exact absurd ((String.isEmpty_iff k).mp h) hk
  simpa [optFalsy] using this

lemma updatePaymentByOrder_match {st : Db} {oid : String} (ns : String) {p : PaymentRow}
    (hp : st.payments.filter (fun q => q.midtrans_order_id == oid) = [p]) :
    updatePaymentByOrder st oid ns =
      (some { p with status := ns },
       { st with payments := setStatusByOrder oid ns st.payments }) := by
  unfold updatePaymentByOrder
  rw [hp]
  rfl

lemma updatePaymentByOrder_none {st : Db} {oid : String} (ns : String)
    (hp : st.payments.filter (fun q => q.midtrans_order_id == oid) = []) :
    updatePaymentByOrder st oid ns = (none, st) := by
  unfold updatePaymentByOrder
  rw [hp]

lemma insertEnrollment_snd (st : Db) (u c : String) (fault : Option String) :
    (insertEnrollment st u c fault).2 =
      { st with enrollments := enrollAfterInsert st.enrollments u c fault } := by
  cases fault with
  | some m => rfl
  | none =>
    simp only [insertEnrollment, enrollAfterInsert]
    split <;> rfl

/-- Overwriting the status preserves the order id, so filtering after the
update is updating after the filter. -/
lemma filter_setStatusByOrder (oid ns : String) (l : List PaymentRow) :
    (setStatusByOrder oid ns l).filter (fun q => q.midtrans_order_id == oid) =
      (l.filter (fun q => q.midtrans_order_id == oid)).map
        (fun q => { q with status := ns }) := by
  unfold setStatusByOrder
  rw [List.filter_map]
  have hcomp : ((fun q : PaymentRow => q.midtrans_order_id == oid) ∘
      (fun q => if q.midtrans_order_id == oid then { q with status := ns } else q)) =
      fun q : PaymentRow => q.midtrans_order_id == oid := by
    funext q
    by_cases h : q.midtrans_order_id = oid <;> simp [h]
  rw [hcomp]
  apply List.map_congr_left
  intro q hq
  have h := (List.mem_filter.mp hq).2
  simp only [beq_iff_eq] at h
  simp [h]

lemma setStatusByOrder_idem (oid ns : String) (l : List PaymentRow) :
    setStatusByOrder oid ns (setStatusByOrder oid ns l) = setStatusByOrder oid ns l := by
  unfold setStatusByOrder
  rw [List.map_map]
  apply List.map_congr_left
  intro q _
  by_cases h : q.midtrans_order_id = oid <;> simp [h]

/-- If every matching row already carries the target status, the update is
the identity on the table. -/
lemma setStatusByOrder_id (oid ns : String) (l : List PaymentRow)
    (h : ∀ q ∈ l, (q.midtrans_order_id == oid) = true → q.status = ns) :
    setStatusByOrder oid ns l = l := by
  induction l with
  | nil => rfl
  | cons a t ih =>
    have ht : setStatusByOrder oid ns t = t :=
      ih fun q hq hq2 => h q (List.mem_cons_of_mem _ hq) hq2
    simp only [setStatusByOrder, List.map_cons] at ht ⊢
    cases ha : a.midtrans_order_id == oid with
    | true =>
      have hs : a.status = ns := h a (List.mem_cons_self a t) ha
      rw [ht, if_pos rfl, ← hs]
    | false =>
      rw [ht, if_neg (by simp)]

lemma filter_eq_nil_of_any_false {α : Type} (f : α → Bool) {l : List α}
    (h : l.any f = false) : l.filter f = [] := by
  induction l with
  | nil => rfl
  | cons a t ih =>
    simp only [List.any_cons, Bool.or_eq_false_iff] at h
    simp [List.filter, h.1, ih h.2]

/-- Once authenticated, the webhook's behaviour is the update-then-insert
tail, which reads only `order_id`, `transaction_status` and `fraud_status`
from the notification. -/
lemma handleNotification_authenticated {k sk : String} (hk : k ≠ "") {n : Notification}
    (hsk : n.signature_key = some sk) (hsk' : sk ≠ "")
    (hv : verifyMidtransSignature n.order_id n.status_code n.gross_amount k sk = true)
    (st : Db) (fault : Option String) :
    handleNotification (some k) n st fault =
      match updatePaymentByOrder st n.order_id
          (mapPaymentStatus n.transaction_status n.fraud_status) with
      | (none, st1) => (⟨400, .errorMsg "Failed to update payment"⟩, st1)
      | (some payment, st1) =>
        if mapPaymentStatus n.transaction_status n.fraud_status = "settlement" then
          (⟨200, .success⟩,
           (insertEnrollment st1 payment.user_id payment.course_id fault).2)
        else
          (⟨200, .success⟩, st1) := by
  unfold handleNotification
  rw [if_neg (by simp [optFalsy_some_eq_false hk]), hsk,
      if_neg (by simp [optFalsy_some_eq_false hsk']),
      if_neg (by simp [Option.getD_some, hv])]

/-- Every byte produced by `toBytesBE` is below 256. -/
lemma toBytesBE_byte_lt {k n : Nat} (b : Nat) (hb : b ∈ toBytesBE k n) : b < 256 := by
  unfold toBytesBE at hb
  obtain ⟨i, _, rfl⟩ := List.mem_map.mp hb
  exact Nat.mod_lt _ (by norm_num)

/-- Every byte of a SHA-512 digest is below 256. -/
lemma sha512Bytes_byte_lt (m : List Nat) : ∀ b ∈ sha512Bytes m, b < 256 := by
  intro b hb
  unfold sha512Bytes at hb
  obtain ⟨l, hl, hbl⟩ := List.mem_flatten.mp hb
  obtain ⟨w, _, rfl⟩ := List.mem_map.mp hl
  exact toBytesBE_byte_lt b hbl

/-- On bytes, the JS rendering `toString(16).padStart(2, '0')` is exactly
the two-digit lowercase-hex rendering. -/
lemma jsByteHex_eq : ∀ b < 256, padStartZeros 2 (natToHexJs b) = byteToHex2 b := by
  decide

/-- On byte lists, the source's hex rendering agrees with the spec-side
lowercase-hex rendering. -/
lemma hexEncodeJs_eq_renderHexLower (bs : List Nat) (h : ∀ b ∈ bs, b < 256) :
    hexEncodeJs bs = renderHexLower bs := by
  unfold hexEncodeJs renderHexLower
  congr 1
  exact List.map_congr_left fun b hb => jsByteHex_eq b (h b hb)

/-- The only messages zod validation can report in this model. -/
lemma validate_messages {c : String} {a : Int} {v : String}
    (h : validatePaymentRequest c a = some v) :
    v = "Invalid course ID format" ∨ v = "Amount must be positive" ∨
      v = "Amount must be at least 1" := by
  unfold validatePaymentRequest at h
  split_ifs at h <;> simp only [Option.some.injEq] at h <;> subst h <;> simp

/-- Master lemma: an authenticated notification that matches exactly one
stored intent always succeeds; the payments table gets the mapped status
written unconditionally, and the enrollments table changes only on a
settlement, by `enrollAfterInsert`. -/
lemma handleNotification_valid {k sk : String} (hk : k ≠ "") {n : Notification}
    (hsk : n.signature_key = some sk) (hsk' : sk ≠ "")
    (hv : verifyMidtransSignature n.order_id n.status_code n.gross_amount k sk = true)
    {st : Db} {p : PaymentRow}
    (hp : st.payments.filter (fun q => q.midtrans_order_id == n.order_id) = [p])
    (fault : Option String) :
    handleNotification (some k) n st fault =
      (⟨200, .success⟩,
       { st with
          payments := setStatusByOrder n.order_id
            (mapPaymentStatus n.transaction_status n.fraud_status) st.payments,
          enrollments :=
            if mapPaymentStatus n.transaction_status n.fraud_status = "settlement" then
              enrollAfterInsert st.enrollments p.user_id p.course_id fault
            else st.enrollments }) := by
  rw [handleNotification_authenticated hk hsk hsk' hv st fault,
      updatePaymentByOrder_match _ hp]
  by_cases hm : mapPaymentStatus n.transaction_status n.fraud_status = "settlement" <;>
    simp [hm, insertEnrollment_snd]

/-! ## Claims -/

/-- **C1, counterexample.**  The claim states that once an intent's status
is terminal (`settlement` or `failed`) no authenticated notification moves
it out of that status.  False: the webhook writes the mapped status
unconditionally.  Here an intent already in `settlement` receives an
authenticated `expire` notification and ends in `failed` (with the
delivery reported as success). -/
theorem c1_counterexample_terminal_status_overwritten :
    wDbSettled.payments.map (fun p => p.status) = ["settlement"] ∧
    ((handleNotification (some wKey) (mkNotif "expire" "" "100000.00" wSig1)
        wDbSettled none).2.payments.map (fun p => p.status)) = ["failed"] ∧
    (handleNotification (some wKey) (mkNotif "expire" "" "100000.00" wSig1)
        wDbSettled none).1 = ⟨200, .success⟩ := by
  refine ⟨rfl, ?_, ?_⟩ <;> rfl

/-- **C1, amended.**  Re-delivering a notification that maps to the same
status as the stored one is a no-op on the payments table (in particular,
re-applying the same terminal status), and the delivery is accepted as
success; but terminal statuses are not sticky: the handler overwrites the
status of the matched intent with the mapped status of the incoming signal
unconditionally, whatever the current status. -/
theorem c1_amended_status_written_unconditionally
    {k sk : String} (hk : k ≠ "") {n : Notification}
    (hsk : n.signature_key = some sk) (hsk' : sk ≠ "")
    (hv : verifyMidtransSignature n.order_id n.status_code n.gross_amount k sk = true)
    {st : Db} {p : PaymentRow}
    (hp : st.payments.filter (fun q => q.midtrans_order_id == n.order_id) = [p])
    (fault : Option String) :
    (handleNotification (some k) n st fault).1 = ⟨200, .success⟩ ∧
    (handleNotification (some k) n st fault).2.payments =
      setStatusByOrder n.order_id
        (mapPaymentStatus n.transaction_status n.fraud_status) st.payments ∧
    (p.status = mapPaymentStatus n.transaction_status n.fraud_status →
      (handleNotification (some k) n st fault).2.payments = st.payments) := by
  rw [handleNotification_valid hk hsk hsk' hv hp fault]
  refine ⟨rfl, rfl, fun hps => ?_⟩
  show setStatusByOrder _ _ _ = st.payments
  apply setStatusByOrder_id
  intro q hq hmatch
  have hmem : q ∈ st.payments.filter (fun q => q.midtrans_order_id == n.order_id) :=
    List.mem_filter.mpr ⟨hq, hmatch⟩
  rw [hp, List.mem_singleton] at hmem
  rw [hmem]
  exact hps

/-- **C1, witness.**  A settled intent re-receiving its own settlement
notification: the payments table is unchanged. -/
theorem c1_witness :
    (handleNotification (some wKey) (mkNotif "settlement" "accept" "100000.00" wSig1)
        wDbSettled none).2.payments = wDbSettled.payments :=
  (c1_amended_status_written_unconditionally (by decide) rfl (by decide) (by rfl)
      (by rfl) none).2.2 (by rfl)

/-- **C2.**  With the secret configured, a notification whose signature key
is absent or does not match the expected digest is rejected with 401 and
the store is untouched, regardless of its `transaction_status` content. -/
theorem c2_bad_signature_rejected_no_mutation
    {k : String} (hk : k ≠ "") (n : Notification) (st : Db) (fault : Option String)
    (hbad : ∀ sk, n.signature_key = some sk →
      verifyMidtransSignature n.order_id n.status_code n.gross_amount k sk = false) :
    (handleNotification (some k) n st fault).1.status = 401 ∧
    (handleNotification (some k) n st fault).2 = st := by
  unfold handleNotification
  rw [if_neg (by simp [optFalsy_some_eq_false hk])]
  cases hsk : n.signature_key with
  | none => exact ⟨rfl, rfl⟩
  | some sk =>
    by_cases hempty : sk = ""
    · subst hempty
      rw [if_pos (show optFalsy (some "") = true from rfl)]
      exact ⟨rfl, rfl⟩
    · rw [if_neg (by simp [optFalsy_some_eq_false hempty]),
          if_pos (by simp [Option.getD_some, hbad sk hsk])]
      exact ⟨rfl, rfl⟩

/-- **C2, witness.**  A notification carrying a signature valid for a
different payload is rejected and the pending intent keeps its state. -/
theorem c2_witness :
    (handleNotification (some wKey) (mkNotif "settlement" "accept" "100000.00" wSig2)
        wDbPending none).1.status = 401 ∧
    (handleNotification (some wKey) (mkNotif "settlement" "accept" "100000.00" wSig2)
        wDbPending none).2 = wDbPending :=
  c2_bad_signature_rejected_no_mutation (by decide) _ _ _
    (fun sk h => by
      simp only [mkNotif, Option.some.injEq] at h
      subst h
      rfl)

/-- **C7, counterexample.**  The claim states that a notification without
`signature_key` fails with 401 even when the server secret is not
configured.  False: the secret-configuration check runs first, so with no
secret and no `signature_key` the handler returns 500, not 401. -/
theorem c7_counterexample_secret_checked_first :
    handleNotification none ⟨"o1", "200", "100", none, "settlement", "accept"⟩
        wDbPending none =
      (⟨500, .errorMsg "Server configuration error"⟩, wDbPending) ∧
    (handleNotification none ⟨"o1", "200", "100", none, "settlement", "accept"⟩
        wDbPending none).1.status ≠ 401 := by
  exact ⟨rfl, by decide⟩

/-- **C7, amended.**  The secret-configuration check precedes the
`signature_key` check: a missing (or empty) secret yields `Misconfigured`
(500) for every notification, including those without `signature_key`;
the missing-`signature_key` 401 arises only when the secret is
configured. -/
theorem c7_amended_secret_check_precedes_signature_check :
    (∀ (sk : Option String) (n : Notification) (st : Db) (fault : Option String),
      optFalsy sk = true →
        handleNotification sk n st fault =
          (⟨500, .errorMsg "Server configuration error"⟩, st)) ∧
    (∀ (k : String) (n : Notification) (st : Db) (fault : Option String),
      k ≠ "" → optFalsy n.signature_key = true →
        handleNotification (some k) n st fault =
          (⟨401, .errorMsg "Invalid request"⟩, st)) := by
  constructor
  · intro sk n st fault h
    unfold handleNotification
    rw [if_pos h]
  · intro k n st fault hk h
    unfold handleNotification
    rw [if_neg (by simp [optFalsy_some_eq_false hk]), if_pos h]

/-- **C7, witness.**  Both arms at concrete inputs: no secret gives 500;
secret configured and `signature_key` absent gives 401. -/
theorem c7_witness :
    handleNotification none ⟨"o1", "200", "100", some "sig", "settlement", "accept"⟩
        wDbPending none =
      (⟨500, .errorMsg "Server configuration error"⟩, wDbPending) ∧
    handleNotification (some wKey) ⟨"o1", "200", "100", none, "settlement", "accept"⟩
        wDbPending none =
      (⟨401, .errorMsg "Invalid request"⟩, wDbPending) :=
  ⟨c7_amended_secret_check_precedes_signature_check.1 none _ wDbPending none rfl,
   c7_amended_secret_check_precedes_signature_check.2 wKey _ wDbPending none
     (by decide) rfl⟩

/-- **C8.**  An authenticated notification whose `order_id` matches no
stored intent is surfaced as an error response (400, the update-failure
message), not success, and the store is unchanged. -/
theorem c8_unknown_order_errors_no_mutation
    {k sk : String} (hk : k ≠ "") {n : Notification}
    (hsk : n.signature_key = some sk) (hsk' : sk ≠ "")
    (hv : verifyMidtransSignature n.order_id n.status_code n.gross_amount k sk = true)
    {st : Db} (fault : Option String)
    (hp : st.payments.filter (fun q => q.midtrans_order_id == n.order_id) = []) :
    handleNotification (some k) n st fault =
      (⟨400, .errorMsg "Failed to update payment"⟩, st) := by
  rw [handleNotification_authenticated hk hsk hsk' hv st fault,
      updatePaymentByOrder_none _ hp]

/-- **C8, witness.**  A validly signed notification for an order id with no
stored intent. -/
theorem c8_witness :
    handleNotification (some wKey)
        ⟨"ORDER-2-nobody00", "200", "100000.00", some wSig2, "settlement", "accept"⟩
        wDbPending none =
      (⟨400, .errorMsg "Failed to update payment"⟩, wDbPending) :=
  c8_unknown_order_errors_no_mutation (by decide) rfl (by decide) (by rfl) none (by rfl)

/-- **C10.**  On a settlement transition, the response is success whatever
the enrollment insert does: for every injected store failure (duplicate or
not) the handler still answers 200 with the success body. -/
theorem c10_enrollment_failure_never_propagates
    {k sk : String} (hk : k ≠ "") {n : Notification}
    (hsk : n.signature_key = some sk) (hsk' : sk ≠ "")
    (hv : verifyMidtransSignature n.order_id n.status_code n.gross_amount k sk = true)
    {st : Db} {p : PaymentRow}
    (hp : st.payments.filter (fun q => q.midtrans_order_id == n.order_id) = [p])
    (hmap : mapPaymentStatus n.transaction_status n.fraud_status = "settlement")
    (fault : Option String) :
    (handleNotification (some k) n st fault).1 = ⟨200, .success⟩ := by
  rw [handleNotification_valid hk hsk hsk' hv hp fault]

/-- **C10, witness.**  A non-duplicate store failure (`connection reset by
peer`) during the enrollment insert: the gateway still sees success. -/
theorem c10_witness :
    (handleNotification (some wKey) (mkNotif "settlement" "accept" "100000.00" wSig1)
        wDbPending (some "connection reset by peer")).1 = ⟨200, .success⟩ :=
  c10_enrollment_failure_never_propagates (by decide) rfl (by decide) (by rfl) (by rfl)
    (by rfl) (some "connection reset by peer")

/-- **C9.**  `gross_amount` feeds only the signature: two authenticated
notifications that agree on everything except `gross_amount` (and each
carry the valid signature for its own amount) produce identical responses
and identical resulting stores — the stored intent's amount is never
compared against the notification's. -/
theorem c9_gross_amount_only_feeds_signature
    {k sk1 sk2 : String} (hk : k ≠ "") {n1 n2 : Notification} (st : Db)
    (fault : Option String)
    (hsk1 : n1.signature_key = some sk1) (h1 : sk1 ≠ "")
    (hsk2 : n2.signature_key = some sk2) (h2 : sk2 ≠ "")
    (hv1 : verifyMidtransSignature n1.order_id n1.status_code n1.gross_amount k sk1 = true)
    (hv2 : verifyMidtransSignature n2.order_id n2.status_code n2.gross_amount k sk2 = true)
    (ho : n2.order_id = n1.order_id) (hsc : n2.status_code = n1.status_code)
    (hts : n2.transaction_status = n1.transaction_status)
    (hfs : n2.fraud_status = n1.fraud_status) :
    handleNotification (some k) n1 st fault = handleNotification (some k) n2 st fault := by
  rw [handleNotification_authenticated hk hsk1 h1 hv1 st fault,
      handleNotification_authenticated hk hsk2 h2 hv2 st fault,
      ho, hts, hfs]

/-- **C9, witness.**  Two validly signed settlements for the same order
differing only in `gross_amount` (`100000.00` vs `250000.00`) yield the
same response and the same store. -/
theorem c9_witness :
    handleNotification (some wKey) (mkNotif "settlement" "accept" "100000.00" wSig1)
        wDbPending none =
      handleNotification (some wKey) (mkNotif "settlement" "accept" "250000.00" wSig3)
        wDbPending none :=
  c9_gross_amount_only_feeds_signature (by decide) wDbPending none rfl (by decide)
    rfl (by decide) (by rfl) (by rfl) rfl rfl rfl rfl

/-- **C4.**  The verifier accepts exactly the lowercase two-digit-per-byte
hex rendering of the SHA-512 digest of the UTF-8 bytes of the separator-
free concatenation `orderId ++ statusCode ++ grossAmount ++ serverKey`,
under case-sensitive string equality.  (Purity and determinism are
inherent: `verifyMidtransSignature` is a total function of its five string
arguments.) -/
theorem c4_verify_signature_iff_sha512_hex (o s g k sig : String) :
    verifyMidtransSignature o s g k sig = true ↔
      sig = renderHexLower (sha512Bytes (utf8Bytes (o ++ s ++ g ++ k))) := by
  show (hexEncodeJs (sha512Bytes (utf8Bytes (o ++ s ++ g ++ k))) == sig) = true ↔ _
  rw [hexEncodeJs_eq_renderHexLower _ (sha512Bytes_byte_lt _)]
  constructor
  · intro h
    exact (beq_iff_eq.mp h).symm
  · intro h
    exact beq_iff_eq.mpr h.symm

/-- **C5.**  On an existing non-free course, a requested amount different
from the stored price fails with the price-mismatch message and the store
is unchanged — no payment row is created. -/
theorem c5_price_mismatch_no_payment_row
    (env : CPEnv) (req : CPRequest) (st : Db) {a : String} {u : CPUser} {course : Course}
    (hauth : req.authHeader = some a) (huser : env.authUser = some u)
    (hval : validatePaymentRequest req.courseId req.amount = none)
    (hcourse : st.courses.filter (fun c => c.id == req.courseId) = [course])
    (hfree : course.is_free = false) (hprice : course.price ≠ req.amount) :
    createPayment env req st =
      (⟨400, .errorMsg "The payment amount does not match the course price."⟩, st) := by
  unfold createPayment
  rw [hauth, huser, hval, hcourse]
  rw [if_neg (by simp)]
  dsimp only
  rw [if_pos ⟨hfree, hprice⟩]
  rfl

/-- **C5, witness.**  A request for `wCourse` (price 100000) at amount
50000 fails with the mapped price-mismatch message and leaves the store
as it was. -/
theorem c5_witness :
    createPayment wEnv wReq wDbCourse =
      (⟨400, .errorMsg "The payment amount does not match the course price."⟩, wDbCourse) :=
  c5_price_mismatch_no_payment_row wEnv wReq wDbCourse rfl rfl (by decide) (by rfl)
    rfl (by decide)

/-- **C3.**  Delivering the same settlement-causing authenticated
notification twice (healthy store both times): both deliveries answer
success, afterwards exactly one enrollment row for the intent's
(user, course) exists, with progress 0, and the intent's status is
`settlement`. -/
theorem c3_double_settlement_exactly_one_enrollment
    {k sk : String} (hk : k ≠ "") {n : Notification}
    (hsk : n.signature_key = some sk) (hsk' : sk ≠ "")
    (hv : verifyMidtransSignature n.order_id n.status_code n.gross_amount k sk = true)
    (hmap : mapPaymentStatus n.transaction_status n.fraud_status = "settlement")
    {st : Db} {p : PaymentRow}
    (hp : st.payments.filter (fun q => q.midtrans_order_id == n.order_id) = [p])
    (he : st.enrollments.any
        (fun e => e.user_id == p.user_id && e.course_id == p.course_id) = false) :
    (handleNotification (some k) n st none).1 = ⟨200, .success⟩ ∧
    (handleNotification (some k) n
        (handleNotification (some k) n st none).2 none).1 = ⟨200, .success⟩ ∧
    ((handleNotification (some k) n
        (handleNotification (some k) n st none).2 none).2.enrollments.filter
      (fun e => e.user_id == p.user_id && e.course_id == p.course_id)) =
      [⟨p.user_id, p.course_id, 0⟩] ∧
    ((handleNotification (some k) n
        (handleNotification (some k) n st none).2 none).2.payments.filter
      (fun q => q.midtrans_order_id == n.order_id)) =
      [{ p with status := "settlement" }] := by
  have h1 := handleNotification_valid hk hsk hsk' hv hp none
  rw [hmap, if_pos rfl] at h1
  have hins1 : enrollAfterInsert st.enrollments p.user_id p.course_id none =
      st.enrollments ++ [⟨p.user_id, p.course_id, 0⟩] := by
    unfold enrollAfterInsert
    rw [he]
    simp
  rw [hins1] at h1
  have hp2 : ({ st with
      payments := setStatusByOrder n.order_id "settlement" st.payments,
      enrollments := st.enrollments ++ [⟨p.user_id, p.course_id, 0⟩] } : Db).payments.filter
        (fun q => q.midtrans_order_id == n.order_id) = [{ p with status := "settlement" }] := by
    show (setStatusByOrder n.order_id "settlement" st.payments).filter _ = _
    rw [filter_setStatusByOrder, hp]
    rfl
  have h2 := handleNotification_valid hk hsk hsk' hv hp2 none
  rw [hmap, if_pos rfl] at h2
  dsimp only at h2
  have hany : (st.enrollments ++ [(⟨p.user_id, p.course_id, 0⟩ : EnrollmentRow)]).any
      (fun e => e.user_id == p.user_id && e.course_id == p.course_id) = true := by
    simp [List.any_append]
  have hins2 : enrollAfterInsert (st.enrollments ++ [⟨p.user_id, p.course_id, 0⟩])
      p.user_id p.course_id none = st.enrollments ++ [⟨p.user_id, p.course_id, 0⟩] := by
    unfold enrollAfterInsert
    rw [hany]
    simp
  rw [hins2, setStatusByOrder_idem] at h2
  refine ⟨by rw [h1], by rw [h1, h2], ?_, ?_⟩
  · rw [h1, h2]
    show ((st.enrollments ++ [(⟨p.user_id, p.course_id, 0⟩ : EnrollmentRow)]).filter
        (fun e => e.user_id == p.user_id && e.course_id == p.course_id)) = _
    rw [List.filter_append, filter_eq_nil_of_any_false _ he]
    simp
  · rw [h1, h2]
    show ((setStatusByOrder n.order_id "settlement" st.payments).filter
        (fun q => q.midtrans_order_id == n.order_id)) = _
    rw [filter_setStatusByOrder, hp]
    rfl

/-- **C3, witness.**  Concrete double delivery of a settlement notification
for the single pending intent of `wDbPending`: exactly one enrollment row
for (`user-1`, `course-1`), with progress 0. -/
theorem c3_witness :
    ((handleNotification (some wKey) (mkNotif "settlement" "accept" "100000.00" wSig1)
        (handleNotification (some wKey) (mkNotif "settlement" "accept" "100000.00" wSig1)
          wDbPending none).2 none).2.enrollments.filter
      (fun e => e.user_id == wPayment.user_id && e.course_id == wPayment.course_id)) =
      [⟨wPayment.user_id, wPayment.course_id, 0⟩] :=
  (c3_double_settlement_exactly_one_enrollment (by decide) rfl (by decide) (by rfl)
      (by rfl) (by rfl) (by rfl)).2.2.1

/-- **C6, counterexample.**  The claim says both entry points draw error
bodies from a fixed mapping of error kinds to user-facing messages (with a
generic default) and never surface internal error text.  False for the
webhook: its catch block echoes the thrown error's message verbatim.  A
validly signed notification for an unknown order makes the update throw
`Failed to update payment`, and exactly that internal text reaches the
client; it is none of the program's mapped user-facing messages
(`createPaymentClientMessages` lists the values of `getUserMessage`, its
generic default, and the validation messages). -/
theorem c6_counterexample_internal_error_text_reaches_client :
    handleNotification (some wKey)
        ⟨"ORDER-2-nobody00", "200", "100000.00", some wSig2, "settlement", "accept"⟩
        wDbPending none =
      (⟨400, .errorMsg "Failed to update payment"⟩, wDbPending) ∧
    createPaymentClientMessages.contains "Failed to update payment" = false := by
  exact ⟨rfl, by decide⟩

/-- **C6, amended.**  `create-payment` draws every client-facing error
string from `getUserMessage`'s fixed table (with its generic default) or
the fixed validation messages; the webhook returns one of four fixed
literal strings, but its 400 arm is the thrown internal message echoed
verbatim rather than a mapped user-facing message. -/
theorem c6_amended_error_bodies_from_fixed_sets :
    (∀ (env : CPEnv) (req : CPRequest) (st : Db),
      errMsgWithin (createPayment env req st).1 createPaymentClientMessages = true) ∧
    (∀ (sk : Option String) (n : Notification) (st : Db) (fault : Option String),
      errMsgWithin (handleNotification sk n st fault).1 webhookClientMessages = true) := by
  constructor
  · intro env req st
    unfold createPayment
    dsimp only
    repeat' split
    all_goals try rfl
    all_goals
      rename_i vmsg heq
    all_goals
      rcases validate_messages heq with rfl | rfl | rfl <;> rfl
  · intro sk n st fault
    unfold handleNotification
    repeat' split
    all_goals rfl

/-- FIPS 180-4 test vector: validates the SHA-512 embedding. -/
theorem sha512_abc_vector :
    renderHexLower (sha512Bytes (utf8Bytes "abc")) =
      "ddaf35a193617abacc417349ae20413112e6fa4e89a97ea20a9eeee64b55d39a2192992a274fc1a836ba3c23a3feebbd454d4423643ce80e2a9ac94fa54ca49f" := by
  rfl

end SkillHub
